import Mathlib

/-!
Verification development for the MCP (Model Context Protocol) client and the
Azure AI agent orchestration loop of this repository.

The Python sources `mcp_client.py` and `azure_ai_agent.py` are shallowly
embedded below.  JSON values are modelled by the inductive type `JValue`
(numbers restricted to integers; none of the verified behaviour involves
floating point).  Python exceptions are modelled with `Except String`,
carrying the exception message.  The HTTP transport and the remote Azure run
service are modelled as explicit parameters (a response value, a status
trace), so that each function of the source becomes a pure Lean function.
-/

/-- JSON values as produced by Python's `json.loads`
(numbers modelled as integers). -/
inductive JValue where
  | null
  | bool (b : Bool)
  | num (n : Int)
  | str (s : String)
  | arr (xs : List JValue)
  | obj (kvs : List (String × JValue))

namespace JValue

/-- Insert a key/value pair the way Python dicts do while `json.loads`
builds an object: an existing key keeps its position but takes the new
value, a fresh key is appended. -/
def objInsert (kvs : List (String × JValue)) (k : String) (v : JValue) :
    List (String × JValue) :=
  match kvs with
  | [] => [(k, v)]
  | (k0, v0) :: rest =>
      if k0 = k then (k0, v) :: rest
      else (k0, v0) :: objInsert rest k v

/-- Key lookup in an object's association list (Python `dict[k]` /
`dict.get(k)` on the parsed representation). -/
def lookupKey (kvs : List (String × JValue)) (k : String) : Option JValue :=
  match kvs with
  | [] => none
  | (k0, v0) :: rest => if k0 = k then some v0 else lookupKey rest k

end JValue

/-! ### A model of Python's `json.loads` (parser over `List Char`, fuel-based) -/

namespace Json

def isJsonWs (c : Char) : Bool :=
  c = ' ' || c = '\t' || c = '\n' || c = '\r'

def skipWs (cs : List Char) : List Char :=
  cs.dropWhile isJsonWs

def hexVal (c : Char) : Option Nat :=
  if '0' ≤ c ∧ c ≤ '9' then some (c.toNat - '0'.toNat)
  else if 'a' ≤ c ∧ c ≤ 'f' then some (c.toNat - 'a'.toNat + 10)
  else if 'A' ≤ c ∧ c ≤ 'F' then some (c.toNat - 'A'.toNat + 10)
  else none

def hex4 (a b c d : Char) : Option Nat := do
  let x1 ← hexVal a
  let x2 ← hexVal b
  let x3 ← hexVal c
  let x4 ← hexVal d
  pure (((x1 * 16 + x2) * 16 + x3) * 16 + x4)

/-- Parse the remainder of a JSON string literal (after the opening quote),
returning its content and the rest of the input. -/
def parseStringChars : Nat → List Char → Option (List Char × List Char)
  | 0, _ => none
  | _, [] => none
  | fuel + 1, c :: rest =>
      if c = '"' then some ([], rest)
      else if c = '\\' then
        match rest with
        | [] => none
        | e :: r1 =>
            let esc : Option (Char × List Char) :=
              if e = '"' then some ('"', r1)
              else if e = '\\' then some ('\\', r1)
              else if e = '/' then some ('/', r1)
              else if e = 'n' then some ('\n', r1)
              else if e = 't' then some ('\t', r1)
              else if e = 'r' then some ('\r', r1)
              else if e = 'b' then some ('\x08', r1)
              else if e = 'f' then some ('\x0c', r1)
              else if e = 'u' then
                match r1 with
                | h1 :: h2 :: h3 :: h4 :: r2 =>
                    (hex4 h1 h2 h3 h4).map (fun n => (Char.ofNat n, r2))
                | _ => none
              else none
            match esc with
            | none => none
            | some (d, r2) =>
                (parseStringChars fuel r2).map (fun p => (d :: p.1, p.2))
      else if c.toNat < 0x20 then none
      else (parseStringChars fuel rest).map (fun p => (c :: p.1, p.2))

def digitsToNat (ds : List Char) : Nat :=
  ds.foldl (fun acc c => acc * 10 + (c.toNat - '0'.toNat)) 0

/-- Parse a JSON integer literal (fractions and exponents are out of the
modelled domain and fail the parse). -/
def parseIntLit (cs : List Char) : Option (Int × List Char) :=
  let neg := cs.head? = some '-'
  let body := if neg then cs.tail else cs
  let ds := body.takeWhile Char.isDigit
  let rest := body.dropWhile Char.isDigit
  if ds.isEmpty then none
  else if ds.length > 1 ∧ ds.head? = some '0' then none
  else
    match rest with
    | '.' :: _ => none
    | 'e' :: _ => none
    | 'E' :: _ => none
    | _ =>
        let n : Int := Int.ofNat (digitsToNat ds)
        some (if neg then -n else n, rest)

mutual

def parseValue : Nat → List Char → Option (JValue × List Char)
  | 0, _ => none
  | fuel + 1, input =>
      match skipWs input with
      | [] => none
      | 'n' :: 'u' :: 'l' :: 'l' :: rest => some (.null, rest)
      | 't' :: 'r' :: 'u' :: 'e' :: rest => some (.bool true, rest)
      | 'f' :: 'a' :: 'l' :: 's' :: 'e' :: rest => some (.bool false, rest)
      | '"' :: rest =>
          (parseStringChars fuel rest).map
            (fun p => (JValue.str (String.mk p.1), p.2))
      | '\x7b' :: rest =>
          (match skipWs rest with
           | '\x7d' :: r2 => some (JValue.obj [], r2)
           | r1 => parseMembers fuel r1 [])
      | '[' :: rest =>
          (match skipWs rest with
           | ']' :: r2 => some (JValue.arr [], r2)
           | r1 => parseItems fuel r1 [])
      | c :: rest =>
          if c = '-' ∨ c.isDigit then
            (parseIntLit (c :: rest)).map (fun p => (JValue.num p.1, p.2))
          else none

def parseMembers : Nat → List Char → List (String × JValue) →
    Option (JValue × List Char)
  | 0, _, _ => none
  | fuel + 1, input, acc =>
      match skipWs input with
      | '"' :: rest =>
          (match parseStringChars fuel rest with
           | none => none
           | some (k, r1) =>
               match skipWs r1 with
               | ':' :: r2 =>
                   (match parseValue fuel r2 with
                    | none => none
                    | some (v, r3) =>
                        let acc2 := JValue.objInsert acc (String.mk k) v
                        match skipWs r3 with
                        | ',' :: r4 => parseMembers fuel r4 acc2
                        | '\x7d' :: r4 => some (JValue.obj acc2, r4)
                        | _ => none)
               | _ => none)
      | _ => none

def parseItems : Nat → List Char → List JValue → Option (JValue × List Char)
  | 0, _, _ => none
  | fuel + 1, input, acc =>
      match parseValue fuel input with
      | none => none
      | some (v, r1) =>
          match skipWs r1 with
          | ',' :: r2 => parseItems fuel r2 (acc ++ [v])
          | ']' :: r2 => some (JValue.arr (acc ++ [v]), r2)
          | _ => none

end

/-- Model of `json.loads input`: `some v` on success, `none` when the
Python call raises `json.JSONDecodeError`. -/
def loads (input : String) : Option JValue :=
  match parseValue (input.length + 2) input.data with
  | none => none
  | some (v, rest) => if (skipWs rest).isEmpty then some v else none

end Json

/-! ### A model of Python's `json.dumps` (default separators) and `str()` -/

namespace Json

def escapeChar (c : Char) : String :=
  if c = '"' then "\\\""
  else if c = '\\' then "\\\\"
  else String.singleton c

def escape (s : String) : String :=
  s.data.foldl (fun acc c => acc ++ escapeChar c) ""

mutual

/-- `json.dumps` with Python's default separators. -/
def dumps : JValue → String
  | .null => "null"
  | .bool true => "true"
  | .bool false => "false"
  | .num n => toString n
  | .str s => "\"" ++ escape s ++ "\""
  | .arr xs => "[" ++ dumpsItems xs ++ "]"
  | .obj kvs => "\x7b" ++ dumpsMembers kvs ++ "\x7d"

def dumpsItems : List JValue → String
  | [] => ""
  | [x] => dumps x
  | x :: y :: xs => dumps x ++ ", " ++ dumpsItems (y :: xs)

def dumpsMembers : List (String × JValue) → String
  | [] => ""
  | [(k, v)] => "\"" ++ escape k ++ "\": " ++ dumps v
  | (k, v) :: m :: kvs =>
      "\"" ++ escape k ++ "\": " ++ dumps v ++ ", " ++ dumpsMembers (m :: kvs)

end

end Json

namespace Py

def escapeSingleChar (c : Char) : String :=
  if c = '\'' then "\\'"
  else if c = '\\' then "\\\\"
  else String.singleton c

mutual

/-- Python `repr` on values obtained from `json.loads` (strings are quoted
with single quotes, booleans capitalised, `None` for null). -/
def reprJ : JValue → String
  | .null => "None"
  | .bool true => "True"
  | .bool false => "False"
  | .num n => toString n
  | .str s => "'" ++ s.data.foldl (fun acc c => acc ++ escapeSingleChar c) "" ++ "'"
  | .arr xs => "[" ++ reprItems xs ++ "]"
  | .obj kvs => "\x7b" ++ reprMembers kvs ++ "\x7d"

def reprItems : List JValue → String
  | [] => ""
  | [x] => reprJ x
  | x :: y :: xs => reprJ x ++ ", " ++ reprItems (y :: xs)

def reprMembers : List (String × JValue) → String
  | [] => ""
  | [(k, v)] => reprJ (.str k) ++ ": " ++ reprJ v
  | (k, v) :: m :: kvs =>
      reprJ (.str k) ++ ": " ++ reprJ v ++ ", " ++ reprMembers (m :: kvs)

end

/-- Python `str` on values obtained from `json.loads`: the identity on
strings, `repr` everywhere else. -/
def strJ : JValue → String
  | .str s => s
  | v => reprJ v

/-- Substring test on character lists (`needle in hay` for Python strings). -/
def subList (needle : List Char) : List Char → Bool
  | [] => needle.isEmpty
  | c :: cs => needle.isPrefixOf (c :: cs) || subList needle cs

/-- Python's `needle in hay` on strings. -/
def strContainsSub (hay needle : String) : Bool :=
  subList needle.data hay.data

/-- Model of Python's `key in value` on a `json.loads` result: key lookup
for dicts, element equality for lists, substring test for strings, and a
`TypeError` for the remaining types. -/
def containsJ (v : JValue) (k : String) : Except String Bool :=
  match v with
  | .obj kvs => .ok (kvs.any (fun p => p.1 = k))
  | .arr xs => .ok (xs.any (fun x => match x with | .str s => s = k | _ => false))
  | .str s => .ok (strContainsSub s k)
  | _ => .error "TypeError: argument is not iterable"

/-- Model of Python's `value[k]` with a string key on a `json.loads`
result: dict indexing, `TypeError` for lists and strings (string indices
must be integers), `TypeError` otherwise. -/
def indexJ (v : JValue) (k : String) : Except String JValue :=
  match v with
  | .obj kvs =>
      match JValue.lookupKey kvs k with
      | some w => .ok w
      | none => .error "KeyError"
  | _ => .error "TypeError: indices must be integers"

/-- Model of Python's `len` on a `json.loads` result: defined for dicts,
lists and strings, a `TypeError` otherwise. -/
def lenJ (v : JValue) : Except String Nat :=
  match v with
  | .obj kvs => .ok kvs.length
  | .arr xs => .ok xs.length
  | .str s => .ok s.length
  | _ => .error "TypeError: object has no len"

/-- Model of Python's `value.get(k, default)` on a `json.loads` result:
defined for dicts, an `AttributeError` otherwise. -/
def getJ (v : JValue) (k : String) (dflt : JValue) : Except String JValue :=
  match v with
  | .obj kvs => .ok ((JValue.lookupKey kvs k).getD dflt)
  | _ => .error "AttributeError: object has no attribute get"

/-- Model of Python's `value.get(k)` (default `None`) on a `json.loads`
result, returning `none` when the key is absent. -/
def getOptJ (v : JValue) (k : String) : Except String (Option JValue) :=
  match v with
  | .obj kvs => .ok (JValue.lookupKey kvs k)
  | _ => .error "AttributeError: object has no attribute get"

/-- Python `str.strip()` (both ends, whitespace). -/
def pyStrip (s : String) : String :=
  String.mk (((s.data.dropWhile Char.isWhitespace).reverse.dropWhile
    Char.isWhitespace).reverse)

/-- Split a character list on a separator character, Python
`str.split(sep)` style (empty pieces preserved). -/
def splitOnChar (sep : Char) : List Char → List (List Char)
  | [] => [[]]
  | c :: cs =>
      let r := splitOnChar sep cs
      if c = sep then [] :: r
      else
        match r with
        | [] => [[c]]
        | x :: xs => (c :: x) :: xs

/-- Python `s.split(sep)` for a one-character separator. -/
def pySplit (s : String) (sep : Char) : List String :=
  (splitOnChar sep s.data).map String.mk

end Py

/-! ### Embedding of `mcp_client.py` (`MCPClient`) -/

namespace Mcp

/-- `MCPClient._is_azure_devtunnel`: substring test on the lowered URL
(`url.lower()`, modelled character by character). -/
def isAzureDevtunnel (url : String) : Bool :=
  Py.strContainsSub (String.mk (url.data.map Char.toLower)) "devtunnels.ms"

/-- The ambient state `MCPClient._get_headers` reads: the configured base
URL, the per-instance session id, the `DEVTUNNEL_ACCESS_TOKEN` environment
variable, and the Azure credential (`none` when unavailable, otherwise the
outcome of its `get_token` call: a token or a raised error). -/
structure HeaderEnv where
  baseUrl : String
  sessionId : String
  devtunnelAccessToken : Option String
  azureCredential : Option (Except String String)

/-- The four headers every request carries. -/
def baseHeaders (sessionId : String) : List (String × String) :=
  [("Accept", "application/json, text/event-stream"),
   ("Content-Type", "application/json"),
   ("X-Session-ID", sessionId),
   ("Cache-Control", "no-cache")]

/-- `MCPClient._get_headers`.  A failing `get_token` call is caught and
logged; the headers are returned without `X-Tunnel-Authorization`. -/
def getHeaders (env : HeaderEnv) : List (String × String) :=
  let headers := baseHeaders env.sessionId
  if isAzureDevtunnel env.baseUrl then
    match env.devtunnelAccessToken with
    | some tok => headers ++ [("X-Tunnel-Authorization", "tunnel " ++ tok)]
    | none =>
        match env.azureCredential with
        | some (.ok tok) =>
            headers ++ [("X-Tunnel-Authorization", "tunnel " ++ tok)]
        | some (.error _) => headers
        | none => headers
  else headers

/-- The first `data: `-prefixed line (after stripping) of the given lines,
with the prefix removed — the scan inside `MCPClient._parse_sse_response`. -/
def findDataPayload : List String → Option String
  | [] => none
  | l :: ls =>
      let s := Py.pyStrip l
      if "data: ".data.isPrefixOf s.data then some (String.mk (s.data.drop 6))
      else findDataPayload ls

/-- `MCPClient._parse_sse_response`. -/
def parseSseResponse (sseText : String) : Except String JValue :=
  match findDataPayload (Py.pySplit (Py.pyStrip sseText) '\n') with
  | none => .error "No data found in SSE response"
  | some jsonData =>
      match Json.loads jsonData with
      | some v => .ok v
      | none => .error "Invalid JSON in SSE response"

/-- Outcome of the HTTP POST inside `MCPClient._send_mcp_request`:
a 2xx response with its body, a non-2xx status (`raise_for_status`
raises `httpx.HTTPStatusError`), or a connection-level failure. -/
inductive HttpResponse where
  | success (body : String)
  | statusError (code : Nat)
  | transportFailure (msg : String)

/-- `MCPClient._send_mcp_request`, given the HTTP outcome of the POST. -/
def sendMcpRequest (resp : HttpResponse) : Except String JValue :=
  match resp with
  | .transportFailure msg => .error msg
  | .statusError code => .error ("MCP server HTTP error: " ++ toString code)
  | .success body =>
      match parseSseResponse body with
      | .error e => .error e
      | .ok parsed =>
          match Py.containsJ parsed "error" with
          | .error e => .error e
          | .ok true =>
              match Py.indexJ parsed "error" with
              | .ok err => .error ("MCP server error: " ++ Py.strJ err)
              | .error e => .error e
          | .ok false => Py.getJ parsed "result" parsed

/-- `MCPClient.get_available_tools`, given the outcome `discovery` of
`self._send_mcp_request("tools/list")` and the current `_tools_cache`.
Returns the Python return value, the cache afterwards, and the number of
MCP requests issued (0 or 1). -/
def getAvailableTools (discovery : Except String JValue)
    (toolsCache : Option JValue) : JValue × Option JValue × Nat :=
  match toolsCache with
  | some ts => (ts, some ts, 0)
  | none =>
      match discovery with
      | .error _ => (.arr [], none, 1)
      | .ok result =>
          match Py.containsJ result "tools" with
          | .error _ => (.arr [], none, 1)
          | .ok true =>
              match Py.indexJ result "tools" with
              | .error _ => (.arr [], none, 1)
              | .ok v =>
                  match Py.lenJ v with
                  | .error _ => (.arr [], some v, 1)
                  | .ok _ => (v, some v, 1)
          | .ok false =>
              match result with
              | .arr xs => (.arr xs, some (.arr xs), 1)
              | _ => (.arr [], some (.arr []), 1)

end Mcp

/-! ### Embedding of `azure_ai_agent.py` (`AzureAIMCPAgent`) -/

namespace Agent

/-- The fallback `inputSchema` in
`AzureAIMCPAgent._convert_mcp_tool_to_azure_format`. -/
def defaultParametersSchema : JValue :=
  .obj [("type", .str "object"), ("properties", .obj []), ("required", .arr [])]

/-- `AzureAIMCPAgent._convert_mcp_tool_to_azure_format`. -/
def convertMcpToolToAzureFormat (mcpTool : JValue) : Except String JValue := do
  let name ← Py.getJ mcpTool "name" (.str "unknown_tool")
  let desc ← Py.getJ mcpTool "description" (.str "")
  let params ← Py.getJ mcpTool "inputSchema" defaultParametersSchema
  pure (.obj [("type", .str "function"),
              ("function", .obj [("name", name),
                                 ("description", desc),
                                 ("parameters", params)])])

/-- The deny-list `excluded_tools` in `AzureAIMCPAgent._setup_mcp_tools`. -/
def excludedTools : List String := ["esql"]

/-- Python's `tool.get("name") not in excluded_tools` where
`excluded_tools` is a set of strings (unhashable values raise). -/
def notInExcluded (v : Option JValue) : Except String Bool :=
  match v with
  | some (.str s) => .ok (!(excludedTools.contains s))
  | some (.arr _) => .error "TypeError: unhashable type"
  | some (.obj _) => .error "TypeError: unhashable type"
  | _ => .ok true

/-- The filtering comprehension in `AzureAIMCPAgent._setup_mcp_tools`. -/
def setupFilter : List JValue → Except String (List JValue)
  | [] => .ok []
  | t :: ts => do
      let n ← Py.getOptJ t "name"
      let keep ← notInExcluded n
      let rest ← setupFilter ts
      pure (if keep then t :: rest else rest)

/-- `AzureAIMCPAgent._setup_mcp_tools`: filter out deny-listed tools, then
convert the remaining descriptors to the Azure tool format, preserving
order. -/
def setupMcpTools (mcpTools : List JValue) : Except String (List JValue) := do
  let filtered ← setupFilter mcpTools
  filtered.mapM convertMcpToolToAzureFormat

/-- One entry of `run.required_action.submit_tool_outputs.tool_calls`. -/
structure PendingToolCall where
  id : String
  name : String
  arguments : String

/-- One entry of the `tool_outputs` batch submitted back to the run. -/
structure ToolOutput where
  tool_call_id : String
  output : String

/-- The defensive `json.loads` of a pending call's arguments in
`AzureAIMCPAgent._handle_mcp_tool_calls`: a decode error degrades to an
empty mapping. -/
def parseArguments (raw : String) : JValue :=
  match Json.loads raw with
  | some v => v
  | none => .obj []

/-- The outcome of `self.mcp_client.call_tool(name, args)` for each tool
name and argument value: a result value, or a raised exception message. -/
def ToolDispatch : Type := String → JValue → Except String JValue

/-- The per-call body of `AzureAIMCPAgent._handle_mcp_tool_calls`: the
`output` string for one pending call. -/
def toolCallOutput (dispatch : ToolDispatch) (tc : PendingToolCall) : String :=
  match dispatch tc.name (parseArguments tc.arguments) with
  | .ok result =>
      match result with
      | .obj kvs => Json.dumps (.obj kvs)
      | r => Py.strJ r
  | .error e =>
      Json.dumps (.obj [("error", .str ("Tool execution failed: " ++ e)),
                        ("success", .bool false)])

/-- The batch produced (and then submitted in one call) by
`AzureAIMCPAgent._handle_mcp_tool_calls`. -/
def handleToolCalls (dispatch : ToolDispatch) (calls : List PendingToolCall) :
    List ToolOutput :=
  calls.map (fun tc => ⟨tc.id, toolCallOutput dispatch tc⟩)

/-- The run status observed by each `runs.get` poll inside
`AzureAIMCPAgent.run_agent`, with the payload the loop reads from it. -/
inductive RunStatus where
  | queued
  | inProgress
  | requiresAction (calls : List PendingToolCall)
  | completed
  | failed (lastError : JValue)
  | cancelled
  | expired

/-- The dictionary `AzureAIMCPAgent.run_agent` returns: `error` is present
only on the failed path, `runId` only on the completed path. -/
structure RunResult where
  status : String
  error : Option JValue
  messages : List JValue
  runId : Option String

/-- `AzureAIMCPAgent.run_agent`'s polling loop, given the tool dispatch,
the thread's message history (what `get_messages` returns when called),
the run id, and the trace of statuses successive `runs.get` polls observe.
Returns the run result (`none` when the trace ends before a terminal
status), the list of submitted tool-output batches, and the number of
`get_messages` fetches performed. -/
def runAgent (dispatch : ToolDispatch) (threadMessages : List JValue)
    (runId : String) :
    List RunStatus → Option RunResult × List (List ToolOutput) × Nat
  | [] => (none, [], 0)
  | status :: rest =>
      match status with
      | .completed =>
          (some ⟨"completed", none, threadMessages, some runId⟩, [], 1)
      | .failed e => (some ⟨"failed", some e, [], none⟩, [], 0)
      | .cancelled => (some ⟨"cancelled", none, threadMessages, none⟩, [], 1)
      | .expired => (some ⟨"expired", none, threadMessages, none⟩, [], 1)
      | .requiresAction calls =>
          let outs := handleToolCalls dispatch calls
          let r := runAgent dispatch threadMessages runId rest
          (r.1, outs :: r.2.1, r.2.2)
      | _ => runAgent dispatch threadMessages runId rest

end Agent

/-! ### Statement vocabulary -/

/-- Does a parsed value have the shape `\x7btools: [...]\x7d` accepts — a
mapping that contains the key `tools`? -/
def isObjWithTools : JValue → Bool
  | .obj kvs => (JValue.lookupKey kvs "tools").isSome
  | _ => false

/-- Is the value a bare sequence (a JSON array / Python list)? -/
def isArrJ : JValue → Bool
  | .arr _ => true
  | _ => false

/-- Is the value a mapping (JSON object / Python dict)? -/
def isObjJ : JValue → Bool
  | .obj _ => true
  | _ => false

/-- A discovery descriptor carrying only a name, as in testable property
P2 of the specification. -/
def mkNamedTool (n : String) : JValue := .obj [("name", .str n)]

/-- Extract `function.name` from a converted Azure-format tool. -/
def azureToolName (t : JValue) : Option JValue :=
  match t with
  | .obj kvs =>
      match JValue.lookupKey kvs "function" with
      | some (.obj f) => JValue.lookupKey f "name"
      | _ => none
  | _ => none

/-! ### Helper lemmas -/

theorem lookupKey_none_any_false (kvs : List (String × JValue)) (k : String)
    (h : JValue.lookupKey kvs k = none) :
    kvs.any (fun p => p.1 = k) = false := by
  induction kvs with
  | nil => rfl
  | cons p rest ih =>
      obtain ⟨k0, v0⟩ := p
      by_cases hk : k0 = k
      · simp [JValue.lookupKey, hk] at h
      · simp [JValue.lookupKey, hk] at h
        simp [List.any_cons, hk, ih h]

theorem getAvailableTools_none_count (d : Except String JValue) :
    (Mcp.getAvailableTools d none).2.2 = 1 := by
  unfold Mcp.getAvailableTools
  rcases d with e | r
  · rfl
  · rcases r with _ | b | n | s | xs | kvs
    · rfl
    · rfl
    · rfl
    · simp only [Py.containsJ]
      rcases Py.strContainsSub s "tools" with _ | _ <;> simp [Py.indexJ]
    · simp only [Py.containsJ]
      rcases hx : (xs.any fun x => match x with | .str s => s = "tools" | _ => false) with _ | _ <;>
        simp [hx, Py.indexJ]
    · simp only [Py.containsJ]
      rcases hx : (kvs.any fun p => p.1 = "tools") with _ | _
      · simp [hx]
      · simp [hx, Py.indexJ]
        rcases hl : JValue.lookupKey kvs "tools" with _ | v
        · simp
        · simp
          rcases v with _ | b | n | s | ys | ks <;> simp [Py.lenJ]

theorem getHeaders_shape (env : Mcp.HeaderEnv) :
    Mcp.getHeaders env = Mcp.baseHeaders env.sessionId
    ∨ ∃ tok, Mcp.getHeaders env =
        Mcp.baseHeaders env.sessionId ++ [("X-Tunnel-Authorization", "tunnel " ++ tok)] := by
  obtain ⟨url, sid, dtok, cred⟩ := env
  unfold Mcp.getHeaders
  by_cases h : Mcp.isAzureDevtunnel url
  · simp only [h, if_true]
    rcases dtok with _ | tok
    · rcases cred with _ | tc
      · left; rfl
      · rcases tc with e | tok2
        · left; rfl
        · right; exact ⟨tok2, rfl⟩
    · right; exact ⟨tok, rfl⟩
  · simp only [h, if_false]
    left; rfl

theorem baseHeaders_lookup (sid : String) (tail : List (String × String)) :
    (Mcp.baseHeaders sid ++ tail).lookup "Accept" = some "application/json, text/event-stream"
    ∧ (Mcp.baseHeaders sid ++ tail).lookup "X-Session-ID" = some sid
    ∧ (Mcp.baseHeaders sid ++ tail).lookup "Cache-Control" = some "no-cache" := by
  refine ⟨rfl, ?_, ?_⟩ <;> rfl

theorem setupFilter_named (ns : List String) :
    Agent.setupFilter (ns.map mkNamedTool) =
      .ok ((ns.filter (fun n => !(Agent.excludedTools.contains n))).map mkNamedTool) := by
  induction ns with
  | nil => rfl
  | cons n rest ih =>
      simp only [List.map_cons, Agent.setupFilter, List.filter_cons]
      rw [show (Py.getOptJ (mkNamedTool n) "name") = Except.ok (some (JValue.str n)) from rfl]
      simp only [bind, Except.bind, ih]
      rw [show (Agent.notInExcluded (some (JValue.str n))) =
            Except.ok (!(Agent.excludedTools.contains n)) from rfl]
      by_cases hn : n ∈ Agent.excludedTools
      · simp [hn, pure, Except.pure]
      · simp [hn, pure, Except.pure]

def convertedNamed (n : String) : JValue :=
  .obj [("type", .str "function"),
        ("function", .obj [("name", .str n),
                           ("description", .str ""),
                           ("parameters", Agent.defaultParametersSchema)])]

theorem mapM_convert_named (ns : List String) :
    (ns.map mkNamedTool).mapM Agent.convertMcpToolToAzureFormat =
      .ok (ns.map convertedNamed) := by
  induction ns with
  | nil => rfl
  | cons n rest ih =>
      simp only [List.map_cons, List.mapM_cons, ih]
      rfl

/-- Claim C7: given discovery descriptors named ["search","esql","get_mappings"]
and the exclusion set containing "esql", `_setup_mcp_tools` returns exactly
the tools named ["search","get_mappings"] in that relative order; in
general, deny-listed names are removed and the discovery order of the
remaining descriptors is preserved, never re-sorted. -/
theorem c7_exclusion_filter_order :
    (Agent.setupMcpTools (["search", "esql", "get_mappings"].map mkNamedTool)).map
        (fun l => l.map azureToolName)
      = .ok [some (.str "search"), some (.str "get_mappings")]
    ∧ ∀ ns : List String,
        (Agent.setupMcpTools (ns.map mkNamedTool)).map (fun l => l.map azureToolName)
          = .ok ((ns.filter (fun n => !(Agent.excludedTools.contains n))).map
              (fun n => some (.str n))) := by
  constructor
  · rfl
  · intro ns
    unfold Agent.setupMcpTools
    simp only [bind, Except.bind, setupFilter_named, mapM_convert_named]
    simp [Except.map, List.map_map]
    intro a _ _
    rfl

/-- Claim C10: when the polled run reaches status `failed`, `run_agent` returns
status "failed" with the remote last error, an empty message list and no
run id, without fetching the thread's message history — unlike the
cancelled/expired outcomes, which carry the fetched message history, and
the completed outcome, which carries the messages and the run id. -/
theorem c10_failed_run_result (dispatch : Agent.ToolDispatch)
    (msgs : List JValue) (rid : String) (rest : List Agent.RunStatus)
    (e : JValue) (n : Nat) :
    Agent.runAgent dispatch msgs rid
        (List.replicate n .inProgress ++ .failed e :: rest)
      = (some ⟨"failed", some e, [], none⟩, [], 0)
    ∧ Agent.runAgent dispatch msgs rid (.cancelled :: rest)
      = (some ⟨"cancelled", none, msgs, none⟩, [], 1)
    ∧ Agent.runAgent dispatch msgs rid (.expired :: rest)
      = (some ⟨"expired", none, msgs, none⟩, [], 1)
    ∧ Agent.runAgent dispatch msgs rid (.completed :: rest)
      = (some ⟨"completed", none, msgs, some rid⟩, [], 1) := by
  refine ⟨?_, rfl, rfl, rfl⟩
  induction n with
  | zero => rfl
  | succ k ih => simpa [List.replicate_succ, Agent.runAgent] using ih

/-- Claim C5 counterexample: on the descriptor named "search", the converted
wrapper's top-level key carrying the value "function" is named "type",
and no key named "kind" exists. -/
theorem c5_counterexample_kind_key :
    Agent.convertMcpToolToAzureFormat (.obj [("name", .str "search")])
      = .ok (.obj [("type", .str "function"),
                   ("function", .obj [("name", .str "search"),
                                      ("description", .str ""),
                                      ("parameters", Agent.defaultParametersSchema)])])
    ∧ (match Agent.convertMcpToolToAzureFormat (.obj [("name", .str "search")]) with
       | .ok (.obj kvs) => JValue.lookupKey kvs "kind"
       | _ => none) = none := ⟨rfl, rfl⟩

/-- Claim C5 amended: every converted descriptor is a wrapper object of the shape
`\x7btype: "function", function: \x7bname, description, parameters\x7d\x7d` — the top-level
key carrying the value "function" is named "type", not "kind". -/
theorem c5_amended_wrapper_shape (kvs : List (String × JValue)) :
    Agent.convertMcpToolToAzureFormat (.obj kvs)
      = .ok (.obj [("type", .str "function"),
                   ("function", .obj [
                      ("name", (JValue.lookupKey kvs "name").getD (.str "unknown_tool")),
                      ("description", (JValue.lookupKey kvs "description").getD (.str "")),
                      ("parameters",
                        (JValue.lookupKey kvs "inputSchema").getD
                          Agent.defaultParametersSchema)])]) := rfl

/-- Claim C6 counterexample: a tool call whose dispatched result is the plain
string "hello world" produces that very string as its output, which is not
valid JSON — so not every output is a JSON-encoded string. -/
theorem c6_counterexample_nonjson_output :
    Agent.toolCallOutput (fun _ _ => .ok (.str "hello world"))
        ⟨"id1", "search", "\x7b\x7d"⟩
      = "hello world"
    ∧ Json.loads "hello world" = none := ⟨rfl, rfl⟩

/-- Claim C6 amended: the output field is the JSON encoding of the result when
the dispatched result is a mapping, and the JSON encoding of the error
payload when the dispatch raises; for a non-mapping result it is Python's
`str()` rendering of the result, which need not be valid JSON. -/
theorem c6_amended_output_encoding (dispatch : Agent.ToolDispatch)
    (tc : Agent.PendingToolCall) :
    (∀ kvs, dispatch tc.name (Agent.parseArguments tc.arguments) = .ok (.obj kvs) →
        Agent.toolCallOutput dispatch tc = Json.dumps (.obj kvs))
    ∧ (∀ e, dispatch tc.name (Agent.parseArguments tc.arguments) = .error e →
        Agent.toolCallOutput dispatch tc
          = Json.dumps (.obj [("error", .str ("Tool execution failed: " ++ e)),
                              ("success", .bool false)]))
    ∧ (∀ r, dispatch tc.name (Agent.parseArguments tc.arguments) = .ok r →
        isObjJ r = false → Agent.toolCallOutput dispatch tc = Py.strJ r) := by
  refine ⟨?_, ?_, ?_⟩
  · intro kvs h
    unfold Agent.toolCallOutput
    rw [h]
  · intro e h
    unfold Agent.toolCallOutput
    rw [h]
  · intro r h hr
    unfold Agent.toolCallOutput
    rw [h]
    rcases r with _ | b | n | s | xs | kvs
    · rfl
    · rfl
    · rfl
    · rfl
    · rfl
    · simp [isObjJ] at hr

theorem c6_amended_output_encoding_witness :
    Agent.toolCallOutput (fun _ _ => .ok (.obj [("hits", .num 3)]))
        ⟨"idA", "search", "\x7b\x7d"⟩
      = "\x7b\"hits\": 3\x7d"
    ∧ Agent.toolCallOutput (fun _ _ => .error "boom") ⟨"idB", "search", "\x7b\x7d"⟩
      = "\x7b\"error\": \"Tool execution failed: boom\", \"success\": false\x7d"
    ∧ Agent.toolCallOutput (fun _ _ => .ok (.str "plain text")) ⟨"idC", "search", "\x7b\x7d"⟩
      = "plain text" := by
  refine ⟨?_, ?_, ?_⟩
  · exact (c6_amended_output_encoding (fun _ _ => .ok (.obj [("hits", .num 3)]))
      ⟨"idA", "search", "\x7b\x7d"⟩).1 [("hits", .num 3)] rfl
  · exact (c6_amended_output_encoding (fun _ _ => .error "boom")
      ⟨"idB", "search", "\x7b\x7d"⟩).2.1 "boom" rfl
  · exact (c6_amended_output_encoding (fun _ _ => .ok (.str "plain text"))
      ⟨"idC", "search", "\x7b\x7d"⟩).2.2 (.str "plain text") rfl rfl

/-- Claim C1: for every 2xx response whose body's first `data: ` line holds valid
JSON that is an object with no "error" key, `_send_mcp_request` returns the
value of that object's "result" key, or the whole parsed object when no
"result" key is present. -/
theorem c1_invoke_sse_result (body s : String) (kvs : List (String × JValue))
    (hline : Mcp.findDataPayload (Py.pySplit (Py.pyStrip body) '\n') = some s)
    (hjson : Json.loads s = some (JValue.obj kvs))
    (herr : JValue.lookupKey kvs "error" = none) :
    Mcp.sendMcpRequest (.success body)
      = .ok ((JValue.lookupKey kvs "result").getD (JValue.obj kvs)) := by
  unfold Mcp.sendMcpRequest Mcp.parseSseResponse
  simp only [hline, hjson]
  simp [Py.containsJ, Py.getJ, lookupKey_none_any_false kvs "error" herr]

theorem c1_invoke_sse_result_witness :
    Mcp.sendMcpRequest (.success
        "event: message\ndata: \x7b\"jsonrpc\":\"2.0\",\"id\":\"x\",\"result\":\x7b\"ok\":true\x7d\x7d\n\n")
      = .ok (.obj [("ok", .bool true)]) :=
  c1_invoke_sse_result
    "event: message\ndata: \x7b\"jsonrpc\":\"2.0\",\"id\":\"x\",\"result\":\x7b\"ok\":true\x7d\x7d\n\n"
    "\x7b\"jsonrpc\":\"2.0\",\"id\":\"x\",\"result\":\x7b\"ok\":true\x7d\x7d"
    [("jsonrpc", .str "2.0"), ("id", .str "x"), ("result", .obj [("ok", .bool true)])]
    (by rfl) (by rfl) (by rfl)

/-- Claim C2: every `requires_action` batch yields exactly one ToolOutput per
pending call, in server order with matching call ids; a call whose
dispatch raises gets the JSON error payload as its output while every
other call is still dispatched independently; the full batch is submitted
in one call and the loop continues. -/
theorem c2_batch_containment (dispatch : Agent.ToolDispatch)
    (calls : List Agent.PendingToolCall) (msgs : List JValue) (rid : String)
    (rest : List Agent.RunStatus) :
    (Agent.handleToolCalls dispatch calls).map (fun o => o.tool_call_id)
        = calls.map (fun c => c.id)
    ∧ Agent.handleToolCalls dispatch calls
        = calls.map (fun tc =>
            (⟨tc.id, Agent.toolCallOutput dispatch tc⟩ : Agent.ToolOutput))
    ∧ (∀ tc : Agent.PendingToolCall, ∀ e,
        dispatch tc.name (Agent.parseArguments tc.arguments) = .error e →
          Agent.toolCallOutput dispatch tc
            = Json.dumps (.obj [("error", .str ("Tool execution failed: " ++ e)),
                                ("success", .bool false)]))
    ∧ (Agent.runAgent dispatch msgs rid (.requiresAction calls :: rest)).2.1
        = Agent.handleToolCalls dispatch calls
            :: (Agent.runAgent dispatch msgs rid rest).2.1
    ∧ Agent.runAgent dispatch msgs rid [.requiresAction calls, .completed]
        = (some ⟨"completed", none, msgs, some rid⟩,
           [Agent.handleToolCalls dispatch calls], 1) := by
  refine ⟨?_, rfl, ?_, rfl, rfl⟩
  · simp [Agent.handleToolCalls]
  · intro tc e h
    unfold Agent.toolCallOutput
    rw [h]

theorem c2_batch_containment_witness :
    Agent.handleToolCalls
        (fun n _ => if n = "esql" then .error "boom" else .ok (.obj [("ok", .bool true)]))
        [⟨"call1", "search", "\x7b\x7d"⟩, ⟨"call2", "esql", "\x7b\x7d"⟩,
         ⟨"call3", "get_mappings", "\x7b\x7d"⟩]
      = [⟨"call1", "\x7b\"ok\": true\x7d"⟩,
         ⟨"call2", "\x7b\"error\": \"Tool execution failed: boom\", \"success\": false\x7d"⟩,
         ⟨"call3", "\x7b\"ok\": true\x7d"⟩]
    ∧ Agent.toolCallOutput
        (fun n _ => if n = "esql" then .error "boom" else .ok (.obj [("ok", .bool true)]))
        ⟨"call2", "esql", "\x7b\x7d"⟩
      = Json.dumps (.obj [("error", .str "Tool execution failed: boom"),
                          ("success", .bool false)]) := by
  constructor
  · rfl
  · exact (c2_batch_containment
      (fun n _ => if n = "esql" then .error "boom" else .ok (.obj [("ok", .bool true)]))
      [⟨"call1", "search", "\x7b\x7d"⟩, ⟨"call2", "esql", "\x7b\x7d"⟩,
       ⟨"call3", "get_mappings", "\x7b\x7d"⟩] [] "run1" []).2.2.1
      ⟨"call2", "esql", "\x7b\x7d"⟩ "boom" rfl

/-- Claim C3 counterexample: with a discovery transport that raises, two calls
to `get_available_tools` on a fresh instance issue two transport calls,
not one (the failure path does not populate the cache). -/
theorem c3_counterexample_two_transport_calls :
    (Mcp.getAvailableTools (.error "connection refused") none).2.2
      + (Mcp.getAvailableTools (.error "connection refused")
          (Mcp.getAvailableTools (.error "connection refused") none).2.1).2.2
      = 2 := rfl

/-- Claim C3 amended: provided the first call stores its returned value in the
cache (as every successfully normalized discovery response does), calling
`get_available_tools` twice issues exactly one transport call, and the
second call returns the cached result, value-equal to the first, with no
network round trip. -/
theorem c3_amended_catalog_caching (discovery : Except String JValue)
    (h : (Mcp.getAvailableTools discovery none).2.1
          = some (Mcp.getAvailableTools discovery none).1) :
    (Mcp.getAvailableTools discovery none).2.2 = 1
    ∧ Mcp.getAvailableTools discovery (Mcp.getAvailableTools discovery none).2.1
        = ((Mcp.getAvailableTools discovery none).1,
           (Mcp.getAvailableTools discovery none).2.1, 0) := by
  refine ⟨getAvailableTools_none_count discovery, ?_⟩
  rw [h]
  rfl

theorem c3_amended_catalog_caching_witness :
    (Mcp.getAvailableTools (.ok (.obj [("tools", .arr [.str "search"])])) none).2.2 = 1
    ∧ Mcp.getAvailableTools (.ok (.obj [("tools", .arr [.str "search"])]))
        (Mcp.getAvailableTools (.ok (.obj [("tools", .arr [.str "search"])])) none).2.1
      = ((Mcp.getAvailableTools (.ok (.obj [("tools", .arr [.str "search"])])) none).1,
         (Mcp.getAvailableTools (.ok (.obj [("tools", .arr [.str "search"])])) none).2.1, 0) :=
  c3_amended_catalog_caching (.ok (.obj [("tools", .arr [.str "search"])])) rfl

/-- Claim C4: if the discovery request raises, or its result is neither a
mapping containing "tools" nor a bare sequence, `get_available_tools`
returns the empty sequence (the embedding is a total function: no
exception reaches the caller). -/
theorem c4_discovery_degrades_to_empty (discovery : Except String JValue)
    (h : ∀ r, discovery = .ok r → isObjWithTools r = false ∧ isArrJ r = false) :
    (Mcp.getAvailableTools discovery none).1 = .arr [] := by
  unfold Mcp.getAvailableTools
  rcases discovery with e | r
  · rfl
  · obtain ⟨h1, h2⟩ := h r rfl
    rcases r with _ | b | n | s | xs | kvs
    · rfl
    · rfl
    · rfl
    · simp only [Py.containsJ]
      rcases Py.strContainsSub s "tools" with _ | _ <;> simp [Py.indexJ]
    · simp [isArrJ] at h2
    · simp only [Py.containsJ]
      simp [isObjWithTools, Option.isSome_iff_exists] at h1
      simp [lookupKey_none_any_false kvs "tools" h1]

theorem c4_discovery_degrades_to_empty_witness :
    (Mcp.getAvailableTools (.ok (.num 5)) none).1 = .arr []
    ∧ (Mcp.getAvailableTools (.error "boom") none).1 = .arr [] :=
  ⟨c4_discovery_degrades_to_empty (.ok (.num 5))
      (by intro r hr; cases hr; exact ⟨rfl, rfl⟩),
   c4_discovery_degrades_to_empty (.error "boom") (by intro r hr; cases hr)⟩

/-- Claim C8: for a tunnel-service URL with no static token and a credential
whose acquisition raises, header construction does not raise and yields
exactly the base headers — no X-Tunnel-Authorization — while every request
(tunneled or not) carries the Accept, per-instance X-Session-ID and
Cache-Control headers. -/
theorem c8_auth_failure_headers (env : Mcp.HeaderEnv)
    (hurl : Mcp.isAzureDevtunnel env.baseUrl = true)
    (htok : env.devtunnelAccessToken = none)
    (hcred : ∃ e, env.azureCredential = some (.error e)) :
    Mcp.getHeaders env = Mcp.baseHeaders env.sessionId
    ∧ (Mcp.getHeaders env).lookup "X-Tunnel-Authorization" = none
    ∧ ∀ env' : Mcp.HeaderEnv,
        (Mcp.getHeaders env').lookup "Accept"
            = some "application/json, text/event-stream"
        ∧ (Mcp.getHeaders env').lookup "X-Session-ID" = some env'.sessionId
        ∧ (Mcp.getHeaders env').lookup "Cache-Control" = some "no-cache" := by
  obtain ⟨e, he⟩ := hcred
  have hbase : Mcp.getHeaders env = Mcp.baseHeaders env.sessionId := by
    obtain ⟨url, sid, dtok, cred⟩ := env
    simp only at hurl htok he
    subst htok he
    simp [Mcp.getHeaders, hurl]
  refine ⟨hbase, by rw [hbase]; rfl, ?_⟩
  intro env'
  rcases getHeaders_shape env' with h | ⟨tok, h⟩
  · rw [h]
    have := baseHeaders_lookup env'.sessionId []
    simpa using this
  · rw [h]
    exact baseHeaders_lookup env'.sessionId _

theorem c8_auth_failure_headers_witness :
    Mcp.getHeaders ⟨"https://abc123.devtunnels.ms/mcp", "sess-1", none,
        some (.error "credential acquisition failed")⟩
      = Mcp.baseHeaders "sess-1"
    ∧ (Mcp.getHeaders ⟨"https://abc123.devtunnels.ms/mcp", "sess-1", none,
        some (.error "credential acquisition failed")⟩).lookup "X-Tunnel-Authorization"
      = none
    ∧ (Mcp.getHeaders ⟨"https://abc123.devtunnels.ms/mcp", "sess-1", none,
        some (.error "credential acquisition failed")⟩).lookup "Accept"
      = some "application/json, text/event-stream" := by
  have h := c8_auth_failure_headers
    ⟨"https://abc123.devtunnels.ms/mcp", "sess-1", none,
      some (.error "credential acquisition failed")⟩
    (by rfl) rfl ⟨"credential acquisition failed", rfl⟩
  exact ⟨h.1, h.2.1, (h.2.2 _).1⟩

/-- Claim C9: a raising discovery request leaves the tools cache unset — the
returned sequence is empty and a subsequent call issues a new transport
call; the empty sequence is cached only by a successful request (an
unrecognized, non-sequence shape caches the empty list permanently:
later calls serve it with no transport call). -/
theorem c9_cache_semantics :
    (∀ e : String,
        Mcp.getAvailableTools (.error e) none = (.arr [], none, 1)
        ∧ (Mcp.getAvailableTools (.error e)
            (Mcp.getAvailableTools (.error e) none).2.1).2.2 = 1)
    ∧ (∀ r : JValue, Py.containsJ r "tools" = .ok false → isArrJ r = false →
        Mcp.getAvailableTools (.ok r) none = (.arr [], some (.arr []), 1)
        ∧ Mcp.getAvailableTools (.ok r) (some (.arr [])) = (.arr [], some (.arr []), 0))
    ∧ (∀ d : Except String JValue, (Mcp.getAvailableTools d none).2.1 ≠ none →
        ∃ r, d = .ok r) := by
  refine ⟨fun e => ⟨rfl, rfl⟩, ?_, ?_⟩
  · intro r hc ha
    refine ⟨?_, rfl⟩
    unfold Mcp.getAvailableTools
    simp only [hc]
    rcases r with _ | b | n | s | xs | kvs
    · rfl
    · rfl
    · rfl
    · rfl
    · simp [isArrJ] at ha
    · rfl
  · intro d h
    rcases d with e | r
    · simp [Mcp.getAvailableTools] at h
    · exact ⟨r, rfl⟩

theorem c9_cache_semantics_witness :
    Mcp.getAvailableTools (.ok (.obj [("result", .num 1)])) none
      = (.arr [], some (.arr []), 1)
    ∧ Mcp.getAvailableTools (.ok (.obj [("result", .num 1)])) (some (.arr []))
      = (.arr [], some (.arr []), 0)
    ∧ Mcp.getAvailableTools (.error "boom") none = (.arr [], none, 1) := by
  have h2 := (c9_cache_semantics.2.1 (.obj [("result", .num 1)]) rfl rfl)
  exact ⟨h2.1, h2.2, (c9_cache_semantics.1 "boom").1⟩
